import Mathlib

/-
Shallow embedding of the CryptoScanner repository (src/cws_v2.py and
src/cws_win.py) for checking the natural-language specification.

Modelling conventions:
* Python floats are modelled as exact rationals (ℚ); the question of
  binary64 representability is handled separately by the predicate
  `Binary64Representable` below.
* Each HTTP balance lookup interacts with an environment that we model
  as a `Resp β` value: either the request itself raised an exception
  (`exn`: DNS failure, connection reset, timeout), or a response with a
  status code arrived whose JSON decoding is an `Except Unit β`
  (`Except.error` models `response.json()` raising, e.g. malformed body;
  this is only consulted when the code actually calls `.json()`).
* Statements that a Python fragment "raises" are modelled by giving the
  fragment the codomain `Except Unit _`; the enclosing `try/except`
  block of the source is the `match` that maps `Except.error` to the
  fall-through value.
* Each fetch function also reports `requests`, the number of outbound
  HTTP requests it performed, so that "no outbound I/O" is statable.
-/

namespace CryptoScanner

/-- Outcome of one HTTP request attempt as seen by the Python code:
either the request/`json()` machinery raised (`exn`), or a response with
a `status` arrived, whose body decodes to `β` or fails to decode. -/
inductive Resp (β : Type) where
  | exn : Resp β
  | http : Nat → Except Unit β → Resp β

/-- The `WalletInfo` dataclass shared by both source files. -/
structure WalletInfo where
  btc_address : String
  eth_address : String
  private_key : String
  btc_balance : ℚ := 0
  eth_balance : ℚ := 0

/-- Result of one balance fetch: the returned balance and how many
outbound HTTP requests were performed. -/
structure FetchOut where
  balance : ℚ
  requests : Nat

/-- Decoded JSON body of an etherscan balance response, as accessed by
the code: the `status` field (`none` = key absent) and the `result`
field (`none` = key absent; `some none` = present but `int()` raises;
`some (some n)` = present and parses to the integer `n`). -/
structure EthBody where
  status : Option String
  result : Option (Option Int)

namespace CwsV2

/-- The `try:` block of `AsyncWalletScanner.get_btc_balance`
(src/cws_v2.py lines 77-84).  The decoded body is the value of
`data[address]['final_balance']`: `none` means the key lookup raises
`KeyError`.  `Except.error` = an exception escapes the block;
`Except.ok none` = the block falls through (non-200);
`Except.ok (some v)` = the block returns balance `v`. -/
def btcTryBody (r : Resp (Option Int)) : Except Unit (Option ℚ) :=
  match r with
  | .exn => .error ()
  | .http status json =>
    if status = 200 then
      match json with
      | .error _ => .error ()
      | .ok none => .error ()
      | .ok (some n) => .ok (some ((n : ℚ) / 100000000))
    else .ok none

/-- `AsyncWalletScanner.get_btc_balance` (src/cws_v2.py lines 71-85):
in test mode returns 0.0 before any request; otherwise runs the `try:`
block, `except Exception: pass`, and falls through to `return 0.0`. -/
def get_btc_balance (testmode : Bool) (r : Resp (Option Int)) : FetchOut :=
  if testmode then ⟨0, 0⟩
  else
    match btcTryBody r with
    | .ok (some v) => ⟨v, 1⟩
    | .ok none => ⟨0, 1⟩
    | .error _ => ⟨0, 1⟩

/-- The `try:` block of `AsyncWalletScanner.get_eth_balance`
(src/cws_v2.py lines 93-101).  `data['status']` raises `KeyError` when
absent; `int(data['result'])` raises when absent or non-numeric. -/
def ethTryBody (r : Resp EthBody) : Except Unit (Option ℚ) :=
  match r with
  | .exn => .error ()
  | .http status json =>
    if status = 200 then
      match json with
      | .error _ => .error ()
      | .ok body =>
        match body.status with
        | none => .error ()
        | some st =>
          if st = "1" then
            match body.result with
            | none => .error ()
            | some none => .error ()
            | some (some n) => .ok (some ((n : ℚ) / 10 ^ 18))
          else .ok none
    else .ok none

/-- `AsyncWalletScanner.get_eth_balance` (src/cws_v2.py lines 87-102). -/
def get_eth_balance (testmode : Bool) (r : Resp EthBody) : FetchOut :=
  if testmode then ⟨0, 0⟩
  else
    match ethTryBody r with
    | .ok (some v) => ⟨v, 1⟩
    | .ok none => ⟨0, 1⟩
    | .error _ => ⟨0, 1⟩

/-- `AsyncWalletScanner.check_wallet_balances` (src/cws_v2.py lines
104-110): gathers both chain lookups and stores their results in the
wallet record's two balance fields. -/
def check_wallet_balances (testmode : Bool) (rb : Resp (Option Int))
    (re : Resp EthBody) (w : WalletInfo) : WalletInfo :=
  { w with
    btc_balance := (get_btc_balance testmode rb).balance
    eth_balance := (get_eth_balance testmode re).balance }

end CwsV2

namespace CwsWin

/-- The `request_delays` dict of `WalletScanner.__init__`
(src/cws_win.py line 40), initially `{'btc': 0.5, 'eth': 0.3}`. -/
structure Delays where
  btc : ℚ
  eth : ℚ

/-- The initial `request_delays` value. -/
def initialDelays : Delays := ⟨1 / 2, 3 / 10⟩

/-- Result of one cws_win balance fetch: the returned balance, the
updated `request_delays` state, and the number of outbound requests. -/
structure FetchOutW where
  balance : ℚ
  delays : Delays
  requests : Nat

/-- `WalletScanner.get_btc_balance` (src/cws_win.py lines 81-103):
test mode short-circuits to 0.0 with no request; on 200 the body value
`data.get(address, {}).get('final_balance', 0)` defaults missing keys
to 0 (modelled by `Option.getD`); on 429 the btc delay is multiplied by
1.5; every other path (json decode error, other statuses, transport
exception) falls through to `return 0.0` with delays unchanged. -/
def get_btc_balance (testmode : Bool) (r : Resp (Option Int))
    (d : Delays) : FetchOutW :=
  if testmode then ⟨0, d, 0⟩
  else
    match r with
    | .exn => ⟨0, d, 1⟩
    | .http status json =>
      if status = 200 then
        match json with
        | .error _ => ⟨0, d, 1⟩
        | .ok b => ⟨((b.getD 0 : Int) : ℚ) / 100000000, d, 1⟩
      else if status = 429 then
        ⟨0, { d with btc := d.btc * (3 / 2) }, 1⟩
      else ⟨0, d, 1⟩

/-- `WalletScanner.get_eth_balance` (src/cws_win.py lines 105-128):
on 200, `data.get('status')` absent or not `"1"` falls through to 0.0;
with status `"1"`, `int(data.get('result', 0))` defaults a missing key
to 0 and raises (caught, yielding 0.0) on a non-numeric value; on 429
the eth delay is multiplied by 1.5. -/
def get_eth_balance (testmode : Bool) (r : Resp EthBody)
    (d : Delays) : FetchOutW :=
  if testmode then ⟨0, d, 0⟩
  else
    match r with
    | .exn => ⟨0, d, 1⟩
    | .http status json =>
      if status = 200 then
        match json with
        | .error _ => ⟨0, d, 1⟩
        | .ok b =>
          if b.status = some "1" then
            match b.result with
            | none => ⟨0, d, 1⟩
            | some none => ⟨0, d, 1⟩
            | some (some n) => ⟨((n : ℚ) / 10 ^ 18), d, 1⟩
          else ⟨0, d, 1⟩
      else if status = 429 then
        ⟨0, { d with eth := d.eth * (3 / 2) }, 1⟩
      else ⟨0, d, 1⟩

/-- Result of `WalletScanner.check_wallet`: the updated wallet record
and the delay state after both lookups. -/
structure CheckOut where
  wallet : WalletInfo
  delays : Delays

/-- `WalletScanner.check_wallet` (src/cws_win.py lines 130-139): runs
both chain lookups (each touches only its own chain's delay entry, so
the concurrent dict updates are modelled by sequential threading) and
stores both results in the wallet record. -/
def check_wallet (testmode : Bool) (rb : Resp (Option Int))
    (re : Resp EthBody) (d : Delays) (w : WalletInfo) : CheckOut :=
  let ob := get_btc_balance testmode rb d
  let oe := get_eth_balance testmode re ob.delays
  { wallet := { w with btc_balance := ob.balance, eth_balance := oe.balance }
    delays := oe.delays }

end CwsWin

/-! ### Scan-loop counters

Both source files run the same loop body (src/cws_v2.py lines 168-195,
src/cws_win.py lines 196-221): check a wallet, increment `scan_count`,
and when `btc_balance > 0 or eth_balance > 0` increment `found_count`
and persist the wallet. -/

/-- The scanner's counter state (`scan_count`, `found_count`). -/
structure ScanState where
  scan_count : Nat
  found_count : Nat

/-- The persistence/counting condition of `run_scan`:
`wallet.btc_balance > 0 or wallet.eth_balance > 0`. -/
def hasBalance (w : WalletInfo) : Bool :=
  decide (0 < w.btc_balance) || decide (0 < w.eth_balance)

/-- One iteration of the `run_scan` loop, restricted to its counter
effects (src/cws_v2.py lines 181-186, src/cws_win.py lines 207-212). -/
def scanStep (s : ScanState) (w : WalletInfo) : ScanState :=
  { scan_count := s.scan_count + 1
    found_count := if hasBalance w then s.found_count + 1 else s.found_count }

/-- The `run_scan` loop over a finite list of checked wallets. -/
def runScanLoop (s : ScanState) (ws : List WalletInfo) : ScanState :=
  ws.foldl scanStep s

/-! ### Concurrency governor

Both scanners guard every outbound request with one shared
`asyncio.Semaphore(max_concurrent_requests)` (src/cws_v2.py lines
35, 76, 92; src/cws_win.py lines 37, 86, 110).  The semaphore-guarded
sections are modelled as a transition system: `acquire` (entering
`async with self.semaphore`) is enabled only while the in-flight count
is below the ceiling, `release` (leaving the block) decrements it. -/

/-- The two chains whose lookups share the semaphore. -/
inductive Chain where
  | btc
  | eth

/-- Governor state: the number of in-flight semaphore-guarded requests. -/
structure GovState where
  inFlight : Nat

/-- Transitions of the shared semaphore with the given ceiling
(`max_concurrent_requests`). -/
inductive GovStep (ceiling : Nat) : GovState → GovState → Prop where
  | acquire (ch : Chain) (s : GovState) :
      s.inFlight < ceiling → GovStep ceiling s ⟨s.inFlight + 1⟩
  | release (ch : Chain) (s : GovState) :
      GovStep ceiling s ⟨s.inFlight - 1⟩

/-- States reachable from the idle scanner (no request in flight). -/
inductive GovReachable (ceiling : Nat) : GovState → Prop where
  | init : GovReachable ceiling ⟨0⟩
  | step {s t : GovState} :
      GovReachable ceiling s → GovStep ceiling s t → GovReachable ceiling t

/-! ### Balance normalization and binary64 representability

The code normalizes raw integer balances by `/ 100000000` (satoshis,
src/cws_v2.py line 82, src/cws_win.py line 94) and `/ 10**18` (wei,
src/cws_v2.py line 99, src/cws_win.py line 119).  The exact
mathematical quotient is the rational below; Python's float division
returns it without precision loss exactly when that rational is
representable as an IEEE binary64 value, i.e. of the form m * 2^e with
|m| < 2^53. -/

/-- Exact value of the BTC normalization `raw / 100000000`. -/
def btcNormalize (raw : Int) : ℚ := (raw : ℚ) / 100000000

/-- Exact value of the ETH normalization `raw / 10**18`. -/
def ethNormalize (raw : Int) : ℚ := (raw : ℚ) / 10 ^ 18

/-- A rational is exactly representable as an IEEE binary64 value:
it equals m * 2^e with mantissa |m| < 2^53 (exponent range is not a
constraint at the magnitudes considered here). -/
def Binary64Representable (q : ℚ) : Prop :=
  ∃ (m e : ℤ), m.natAbs < 2 ^ 53 ∧ q = (m : ℚ) * (2 : ℚ) ^ e

/-! ### Spec-side outcome classification

The spec (§4.2, §7) classifies each chain lookup as Success, Throttled
or Failed.  The code has no such type; for comparing the code's
combining rule with the spec's, the classifications below assign the
spec's outcome to each response scenario, following the spec's words:
Success = HTTP 200 whose body parses along the value-returning path,
Throttled = HTTP 429, Failed = everything else (the spec's TimedOut is
one of the transport exceptions folded into `Resp.exn`). -/

/-- The spec's BalanceResult outcome taxonomy (TimedOut folded into
`failed`, as timeouts surface as exceptions in both source files). -/
inductive Outcome where
  | success
  | throttled
  | failed
deriving DecidableEq

namespace CwsV2

/-- Spec outcome of a cws_v2 BTC lookup scenario: Success exactly when
the code's value-returning path (200, body parses, key present) runs. -/
def btcOutcome (r : Resp (Option Int)) : Outcome :=
  match r with
  | .exn => .failed
  | .http status json =>
    if status = 200 then
      match json with
      | .ok (some _) => .success
      | _ => .failed
    else if status = 429 then .throttled
    else .failed

/-- Spec outcome of a cws_v2 ETH lookup scenario: Success exactly when
the code's value-returning path (200, body parses, status "1", numeric
result) runs. -/
def ethOutcome (r : Resp EthBody) : Outcome :=
  match r with
  | .exn => .failed
  | .http status json =>
    if status = 200 then
      match json with
      | .ok body =>
        match body.status with
        | some st =>
          if st = "1" then
            match body.result with
            | some (some _) => .success
            | _ => .failed
          else .failed
        | none => .failed
      | .error _ => .failed
    else if status = 429 then .throttled
    else .failed

end CwsV2

namespace CwsWin

/-- Spec outcome of a cws_win BTC lookup scenario: on 200 a parsed body
always yields a value (missing keys default to 0), hence Success. -/
def btcOutcome (r : Resp (Option Int)) : Outcome :=
  match r with
  | .exn => .failed
  | .http status json =>
    if status = 200 then
      match json with
      | .ok _ => .success
      | .error _ => .failed
    else if status = 429 then .throttled
    else .failed

/-- Spec outcome of a cws_win ETH lookup scenario: Success exactly when
the code's value-returning path (200, body parses, status "1", result
absent-defaulting-to-0 or numeric) runs. -/
def ethOutcome (r : Resp EthBody) : Outcome :=
  match r with
  | .exn => .failed
  | .http status json =>
    if status = 200 then
      match json with
      | .ok body =>
        if body.status = some "1" then
          match body.result with
          | some none => .failed
          | _ => .success
        else .failed
      | .error _ => .failed
    else if status = 429 then .throttled
    else .failed

end CwsWin

/-! ## Theorems for the claims -/

/-- C3: at no instant do more than the configured ceiling
(`max_concurrent_requests`, the semaphore bound) of balance-lookup
requests across all chains execute concurrently: in every state
reachable from the idle scanner by semaphore transitions, the in-flight
count is at most the ceiling, for any number of overlapping lookups. -/
theorem c3_governor_ceiling (ceiling : Nat) (s : GovState)
    (h : GovReachable ceiling s) : s.inFlight ≤ ceiling := by
  induction h with
  | init => exact Nat.zero_le _
  | step hr hstep ih =>
    cases hstep with
    | acquire ch t hlt => exact hlt
    | release ch t => exact le_trans (Nat.sub_le _ _) ih

/-- Witness for C3: a concrete reachable state (two lookups admitted,
one per chain, under ceiling 2) satisfies the bound. -/
theorem c3_governor_ceiling_witness : (⟨2⟩ : GovState).inFlight ≤ 2 :=
  c3_governor_ceiling 2 ⟨2⟩
    (GovReachable.step
      (GovReachable.step GovReachable.init
        (GovStep.acquire Chain.btc ⟨0⟩ (by decide)))
      (GovStep.acquire Chain.eth ⟨1⟩ (by decide)))

/-- C4: with test mode enabled, every chain balance fetch (in both
source files) returns a fixed zero balance and performs zero outbound
requests, for every address/response scenario; the cws_win delay state
is also untouched. -/
theorem c4_testmode_no_io (rb : Resp (Option Int)) (re : Resp EthBody)
    (d : CwsWin.Delays) :
    CwsV2.get_btc_balance true rb = ⟨0, 0⟩
    ∧ CwsV2.get_eth_balance true re = ⟨0, 0⟩
    ∧ CwsWin.get_btc_balance true rb d = ⟨0, d, 0⟩
    ∧ CwsWin.get_eth_balance true re d = ⟨0, d, 0⟩ :=
  ⟨rfl, rfl, rfl, rfl⟩

/-- C1: for every candidate and every pair of per-chain response
scenarios (including any combination of failures), the verification
operation of each source file returns a record whose two balance fields
are exactly the two per-chain lookup results — one result per supported
chain, both populated; in particular, when one chain's lookup raises
internally (its `try:` body errors), the record is still produced, with
0 for that chain and the other chain's result intact. -/
theorem c1_check_wallet_fully_populated (tm : Bool) (rb : Resp (Option Int))
    (re : Resp EthBody) (d : CwsWin.Delays) (w : WalletInfo) :
    ((CwsV2.check_wallet_balances tm rb re w).btc_balance
        = (CwsV2.get_btc_balance tm rb).balance
      ∧ (CwsV2.check_wallet_balances tm rb re w).eth_balance
        = (CwsV2.get_eth_balance tm re).balance)
    ∧ ((CwsWin.check_wallet tm rb re d w).wallet.btc_balance
        = (CwsWin.get_btc_balance tm rb d).balance
      ∧ (CwsWin.check_wallet tm rb re d w).wallet.eth_balance
        = (CwsWin.get_eth_balance tm re (CwsWin.get_btc_balance tm rb d).delays).balance)
    ∧ (CwsV2.btcTryBody rb = .error () →
        (CwsV2.check_wallet_balances tm rb re w).btc_balance = 0
        ∧ (CwsV2.check_wallet_balances tm rb re w).eth_balance
          = (CwsV2.get_eth_balance tm re).balance)
    ∧ (CwsV2.ethTryBody re = .error () →
        (CwsV2.check_wallet_balances tm rb re w).eth_balance = 0
        ∧ (CwsV2.check_wallet_balances tm rb re w).btc_balance
          = (CwsV2.get_btc_balance tm rb).balance) := by
  refine ⟨⟨rfl, rfl⟩, ⟨rfl, rfl⟩, ?_, ?_⟩
  · intro herr
    refine ⟨?_, rfl⟩
    simp only [CwsV2.check_wallet_balances, CwsV2.get_btc_balance, herr]
    cases tm <;> simp
  · intro herr
    refine ⟨?_, rfl⟩
    simp only [CwsV2.check_wallet_balances, CwsV2.get_eth_balance, herr]
    cases tm <;> simp

/-- Witness for C1: concrete instance where the BTC lookup raises
(transport error) and the ETH lookup succeeds with a nonzero balance:
the record is still fully populated. -/
theorem c1_check_wallet_fully_populated_witness :
    (CwsV2.check_wallet_balances false Resp.exn
        (Resp.http 200 (Except.ok ⟨some "1", some (some 5)⟩))
        ⟨"b", "e", "k", 0, 0⟩).btc_balance = 0
    ∧ (CwsV2.check_wallet_balances false Resp.exn
        (Resp.http 200 (Except.ok ⟨some "1", some (some 5)⟩))
        ⟨"b", "e", "k", 0, 0⟩).eth_balance
      = (CwsV2.get_eth_balance false
          (Resp.http 200 (Except.ok ⟨some "1", some (some 5)⟩))).balance :=
  (c1_check_wallet_fully_populated false Resp.exn
    (Resp.http 200 (Except.ok ⟨some "1", some (some 5)⟩))
    CwsWin.initialDelays ⟨"b", "e", "k", 0, 0⟩).2.2.1 rfl

/-- C2: each chain balance fetch is total at its boundary: a transport
error, a JSON decode failure on HTTP 200, a schema mismatch (missing
key / non-numeric result), or any non-200 status yields balance 0
rather than propagating an exception — formally, whenever the `try:`
body of a cws_v2 fetch errors, the fetch still returns ⟨0, 1⟩, and
every listed failure scenario gives balance 0 in both source files. -/
theorem c2_fetch_total_on_failure (s : Nat) (hs : s ≠ 200)
    (jb : Except Unit (Option Int)) (je : Except Unit EthBody)
    (d : CwsWin.Delays) :
    (CwsV2.get_btc_balance false Resp.exn).balance = 0
    ∧ (CwsV2.get_btc_balance false (Resp.http 200 (Except.error ()))).balance = 0
    ∧ (CwsV2.get_btc_balance false (Resp.http 200 (Except.ok none))).balance = 0
    ∧ (CwsV2.get_btc_balance false (Resp.http s jb)).balance = 0
    ∧ (CwsV2.get_eth_balance false Resp.exn).balance = 0
    ∧ (CwsV2.get_eth_balance false (Resp.http 200 (Except.error ()))).balance = 0
    ∧ (CwsV2.get_eth_balance false (Resp.http 200 (Except.ok ⟨none, none⟩))).balance = 0
    ∧ (CwsV2.get_eth_balance false (Resp.http 200 (Except.ok ⟨some "1", some none⟩))).balance = 0
    ∧ (CwsV2.get_eth_balance false (Resp.http s je)).balance = 0
    ∧ (∀ r, CwsV2.btcTryBody r = .error () →
        CwsV2.get_btc_balance false r = ⟨0, 1⟩)
    ∧ (∀ r, CwsV2.ethTryBody r = .error () →
        CwsV2.get_eth_balance false r = ⟨0, 1⟩)
    ∧ (CwsWin.get_btc_balance false Resp.exn d).balance = 0
    ∧ (CwsWin.get_btc_balance false (Resp.http 200 (Except.error ())) d).balance = 0
    ∧ (CwsWin.get_btc_balance false (Resp.http s jb) d).balance = 0
    ∧ (CwsWin.get_eth_balance false Resp.exn d).balance = 0
    ∧ (CwsWin.get_eth_balance false (Resp.http 200 (Except.error ())) d).balance = 0
    ∧ (CwsWin.get_eth_balance false (Resp.http 200 (Except.ok ⟨some "1", some none⟩)) d).balance = 0
    ∧ (CwsWin.get_eth_balance false (Resp.http s je) d).balance = 0 := by
  refine ⟨rfl, rfl, rfl, ?_, rfl, rfl, rfl, rfl, ?_, ?_, ?_, rfl, rfl, ?_, rfl, rfl, rfl, ?_⟩
  · simp [CwsV2.get_btc_balance, CwsV2.btcTryBody, hs]
  · simp [CwsV2.get_eth_balance, CwsV2.ethTryBody, hs]
  · intro r herr
    simp [CwsV2.get_btc_balance, herr]
  · intro r herr
    simp [CwsV2.get_eth_balance, herr]
  · simp only [CwsWin.get_btc_balance, Bool.false_eq_true, if_false, if_neg hs]
    split <;> rfl
  · simp only [CwsWin.get_eth_balance, Bool.false_eq_true, if_false, if_neg hs]
    split <;> rfl

/-- Witness for C2: concrete instance at status 404. -/
theorem c2_fetch_total_on_failure_witness :
    (CwsV2.get_btc_balance false (Resp.http 404 (Except.ok none))).balance = 0 :=
  (c2_fetch_total_on_failure 404 (by decide) (Except.ok none)
    (Except.ok ⟨none, none⟩) CwsWin.initialDelays).2.2.2.1

/-- Iterated throttling: the cws_win btc delay state after `n`
consecutive `get_btc_balance` calls that each receive HTTP 429. -/
def throttleBtcIter : Nat → CwsWin.Delays → CwsWin.Delays
  | 0, d => d
  | n + 1, d =>
    throttleBtcIter n
      (CwsWin.get_btc_balance false (Resp.http 429 (Except.ok none)) d).delays

/-- Counterexample for C5: the code applies no upper bound to the
adaptive delay.  From the initial delays, seven consecutive 429
responses leave the btc delay at 2187/256 s (≤ 10 s), and the eighth
429 raises it to 6561/512 s, strictly above the claimed 10 s bound —
under the claim the increase would have been clamped at 10 s. -/
theorem c5_counterexample :
    (throttleBtcIter 7 CwsWin.initialDelays).btc ≤ 10
    ∧ 10 < (throttleBtcIter 8 CwsWin.initialDelays).btc := by
  constructor <;>
    norm_num [throttleBtcIter, CwsWin.get_btc_balance, CwsWin.initialDelays]

/-- C5 (amended): on an HTTP 429 response for a chain, the cws_win call
yields balance 0 from a single request (no retry within the call), and
that chain's adaptive delay is multiplied by exactly 1.5 with no upper
bound applied; any other outcome (200, other statuses, transport error)
leaves the delays unchanged. -/
theorem c5_throttle_delay (j : Except Unit (Option Int))
    (je : Except Unit EthBody) (d : CwsWin.Delays) (s : Nat)
    (hs : s ≠ 429) :
    (CwsWin.get_btc_balance false (Resp.http 429 j) d).balance = 0
    ∧ (CwsWin.get_btc_balance false (Resp.http 429 j) d).requests = 1
    ∧ (CwsWin.get_btc_balance false (Resp.http 429 j) d).delays.btc
        = d.btc * (3 / 2)
    ∧ (CwsWin.get_eth_balance false (Resp.http 429 je) d).balance = 0
    ∧ (CwsWin.get_eth_balance false (Resp.http 429 je) d).requests = 1
    ∧ (CwsWin.get_eth_balance false (Resp.http 429 je) d).delays.eth
        = d.eth * (3 / 2)
    ∧ (s = 200 ∨ True →
        (CwsWin.get_btc_balance false Resp.exn d).delays = d)
    ∧ (s ≠ 200 → (CwsWin.get_btc_balance false (Resp.http s j) d).delays = d)
    ∧ (s ≠ 200 → (CwsWin.get_eth_balance false (Resp.http s je) d).delays = d)
    ∧ (CwsWin.get_btc_balance false (Resp.http 200 j) d).delays = d
    ∧ (CwsWin.get_eth_balance false (Resp.http 200 je) d).delays = d
    ∧ (CwsWin.get_eth_balance false Resp.exn d).delays = d := by
  refine ⟨rfl, rfl, rfl, rfl, rfl, rfl, fun _ => rfl, ?_, ?_, ?_, ?_, rfl⟩
  · intro h200
    simp only [CwsWin.get_btc_balance, Bool.false_eq_true, if_false,
      if_neg h200, if_neg hs]
  · intro h200
    simp only [CwsWin.get_eth_balance, Bool.false_eq_true, if_false,
      if_neg h200, if_neg hs]
  · simp only [CwsWin.get_btc_balance, Bool.false_eq_true, if_false, if_pos rfl]
    cases j <;> rfl
  · simp only [CwsWin.get_eth_balance, Bool.false_eq_true, if_false, if_pos rfl]
    cases je with
    | error e => rfl
    | ok b =>
      by_cases h : b.status = some "1"
      · simp only [if_pos h]
        rcases b.result with _ | r
        · rfl
        · rcases r with _ | n <;> rfl
      · simp [h]

/-- Witness for C5 (amended): concrete instance at status 404 and the
initial delays. -/
theorem c5_throttle_delay_witness :
    (CwsWin.get_btc_balance false (Resp.http 429 (Except.ok none))
      CwsWin.initialDelays).delays.btc = CwsWin.initialDelays.btc * (3 / 2) :=
  (c5_throttle_delay (Except.ok none) (Except.ok ⟨none, none⟩)
    CwsWin.initialDelays 404 (by decide)).2.2.1

/-- C8: an HTTP 429 on chain X strictly increases chain X's adaptive
delay (when that delay is positive, as it always is from the initial
state) and leaves chain Y's delay unchanged, in both directions for the
two chains. -/
theorem c8_throttle_frame (j : Except Unit (Option Int))
    (je : Except Unit EthBody) (d : CwsWin.Delays)
    (hb : 0 < d.btc) (he : 0 < d.eth) :
    (d.btc < (CwsWin.get_btc_balance false (Resp.http 429 j) d).delays.btc
      ∧ (CwsWin.get_btc_balance false (Resp.http 429 j) d).delays.eth = d.eth)
    ∧ (d.eth < (CwsWin.get_eth_balance false (Resp.http 429 je) d).delays.eth
      ∧ (CwsWin.get_eth_balance false (Resp.http 429 je) d).delays.btc = d.btc) := by
  refine ⟨⟨?_, rfl⟩, ⟨?_, rfl⟩⟩
  · show d.btc < d.btc * (3 / 2)
    nlinarith
  · show d.eth < d.eth * (3 / 2)
    nlinarith

/-- Witness for C8: concrete instance at the initial delays. -/
theorem c8_throttle_frame_witness :
    CwsWin.initialDelays.btc
      < (CwsWin.get_btc_balance false (Resp.http 429 (Except.ok none))
          CwsWin.initialDelays).delays.btc :=
  (c8_throttle_frame (Except.ok none) (Except.ok ⟨none, none⟩)
    CwsWin.initialDelays (by norm_num [CwsWin.initialDelays])
    (by norm_num [CwsWin.initialDelays])).1.1

/-- C9: an ETH lookup that receives HTTP 200 with an application-level
error (`status` field present but not "1") returns the same output as a
genuine zero balance (status "1", result 0): balance 0 in both source
files, with identical request counts and (for cws_win) identical delay
state — the two situations are indistinguishable at the caller's
interface. -/
theorem c9_eth_app_error_zero (st : String) (hst : st ≠ "1")
    (res : Option (Option Int)) (d : CwsWin.Delays) :
    (CwsV2.get_eth_balance false (Resp.http 200 (Except.ok ⟨some st, res⟩))).balance = 0
    ∧ CwsV2.get_eth_balance false (Resp.http 200 (Except.ok ⟨some st, res⟩))
        = CwsV2.get_eth_balance false
            (Resp.http 200 (Except.ok ⟨some "1", some (some 0)⟩))
    ∧ (CwsWin.get_eth_balance false (Resp.http 200 (Except.ok ⟨some st, res⟩)) d).balance = 0
    ∧ CwsWin.get_eth_balance false (Resp.http 200 (Except.ok ⟨some st, res⟩)) d
        = CwsWin.get_eth_balance false
            (Resp.http 200 (Except.ok ⟨some "1", some (some 0)⟩)) d := by
  have hv2 : CwsV2.get_eth_balance false
      (Resp.http 200 (Except.ok ⟨some st, res⟩)) = ⟨0, 1⟩ := by
    simp [CwsV2.get_eth_balance, CwsV2.ethTryBody, hst]
  have hz2 : CwsV2.get_eth_balance false
      (Resp.http 200 (Except.ok ⟨some "1", some (some 0)⟩)) = ⟨0, 1⟩ := by
    simp [CwsV2.get_eth_balance, CwsV2.ethTryBody]
  have hw : CwsWin.get_eth_balance false
      (Resp.http 200 (Except.ok ⟨some st, res⟩)) d = ⟨0, d, 1⟩ := by
    simp [CwsWin.get_eth_balance, hst]
  have hzw : CwsWin.get_eth_balance false
      (Resp.http 200 (Except.ok ⟨some "1", some (some 0)⟩)) d = ⟨0, d, 1⟩ := by
    simp [CwsWin.get_eth_balance]
  refine ⟨by rw [hv2], by rw [hv2, hz2], by rw [hw], by rw [hw, hzw]⟩

/-- Witness for C9: concrete instance with upstream status "0". -/
theorem c9_eth_app_error_zero_witness :
    (CwsV2.get_eth_balance false
      (Resp.http 200 (Except.ok ⟨some "0", some (some 7)⟩))).balance = 0 :=
  (c9_eth_app_error_zero "0" (by decide) (some (some 7))
    CwsWin.initialDelays).1

/-- A cws_v2 BTC lookup with positive balance must have run the
value-returning path, i.e. its spec outcome is Success. -/
theorem v2_btc_pos_success (r : Resp (Option Int)) :
    0 < (CwsV2.get_btc_balance false r).balance →
      CwsV2.btcOutcome r = Outcome.success := by
  intro hpos
  rcases r with _ | ⟨s, j⟩
  · simp [CwsV2.get_btc_balance, CwsV2.btcTryBody] at hpos
  · by_cases h200 : s = 200
    · subst h200
      rcases j with e | b
      · simp [CwsV2.get_btc_balance, CwsV2.btcTryBody] at hpos
      · rcases b with _ | n
        · simp [CwsV2.get_btc_balance, CwsV2.btcTryBody] at hpos
        · simp [CwsV2.btcOutcome]
    · simp [CwsV2.get_btc_balance, CwsV2.btcTryBody, h200] at hpos

/-- A cws_v2 ETH lookup with positive balance must have run the
value-returning path, i.e. its spec outcome is Success. -/
theorem v2_eth_pos_success (r : Resp EthBody) :
    0 < (CwsV2.get_eth_balance false r).balance →
      CwsV2.ethOutcome r = Outcome.success := by
  intro hpos
  rcases r with _ | ⟨s, j⟩
  · simp [CwsV2.get_eth_balance, CwsV2.ethTryBody] at hpos
  · by_cases h200 : s = 200
    · subst h200
      rcases j with e | b
      · simp [CwsV2.get_eth_balance, CwsV2.ethTryBody] at hpos
      · rcases b with ⟨_ | st, res⟩
        · simp [CwsV2.get_eth_balance, CwsV2.ethTryBody] at hpos
        · by_cases h1 : st = "1"
          · subst h1
            rcases res with _ | r1
            · simp [CwsV2.get_eth_balance, CwsV2.ethTryBody] at hpos
            · rcases r1 with _ | n
              · simp [CwsV2.get_eth_balance, CwsV2.ethTryBody] at hpos
              · simp [CwsV2.ethOutcome]
          · simp [CwsV2.get_eth_balance, CwsV2.ethTryBody, h1] at hpos
    · simp [CwsV2.get_eth_balance, CwsV2.ethTryBody, h200] at hpos

/-- A cws_win BTC lookup with positive balance must have run the
value-returning path, i.e. its spec outcome is Success. -/
theorem win_btc_pos_success (r : Resp (Option Int)) (d : CwsWin.Delays) :
    0 < (CwsWin.get_btc_balance false r d).balance →
      CwsWin.btcOutcome r = Outcome.success := by
  intro hpos
  rcases r with _ | ⟨s, j⟩
  · simp [CwsWin.get_btc_balance] at hpos
  · by_cases h200 : s = 200
    · subst h200
      rcases j with e | b
      · simp [CwsWin.get_btc_balance] at hpos
      · simp [CwsWin.btcOutcome]
    · by_cases h429 : s = 429
      · subst h429
        simp [CwsWin.get_btc_balance] at hpos
      · simp [CwsWin.get_btc_balance, h200, h429] at hpos

/-- A cws_win ETH lookup with positive balance must have run the
value-returning path, i.e. its spec outcome is Success. -/
theorem win_eth_pos_success (r : Resp EthBody) (d : CwsWin.Delays) :
    0 < (CwsWin.get_eth_balance false r d).balance →
      CwsWin.ethOutcome r = Outcome.success := by
  intro hpos
  rcases r with _ | ⟨s, j⟩
  · simp [CwsWin.get_eth_balance] at hpos
  · by_cases h200 : s = 200
    · subst h200
      rcases j with e | b
      · simp [CwsWin.get_eth_balance] at hpos
      · by_cases h1 : b.status = some "1"
        · simp [CwsWin.ethOutcome, h1]
          rcases hres : b.result with _ | r1
          · simp
          · rcases r1 with _ | n
            · simp [CwsWin.get_eth_balance, h1, hres] at hpos
            · simp
        · simp [CwsWin.get_eth_balance, h1] at hpos
    · by_cases h429 : s = 429
      · subst h429
        simp [CwsWin.get_eth_balance] at hpos
      · simp [CwsWin.get_eth_balance, h200, h429] at hpos

/-- C7: in both source files, a candidate is counted as found and
persisted (the `run_scan` condition `btc_balance > 0 or eth_balance >
0` on the checked record) if and only if at least one chain's lookup
has spec outcome Success with balance > 0. -/
theorem c7_interesting_iff (rb : Resp (Option Int)) (re : Resp EthBody)
    (d : CwsWin.Delays) (w : WalletInfo) :
    (hasBalance (CwsV2.check_wallet_balances false rb re w) = true
      ↔ ((CwsV2.btcOutcome rb = Outcome.success
            ∧ 0 < (CwsV2.check_wallet_balances false rb re w).btc_balance)
        ∨ (CwsV2.ethOutcome re = Outcome.success
            ∧ 0 < (CwsV2.check_wallet_balances false rb re w).eth_balance)))
    ∧ (hasBalance (CwsWin.check_wallet false rb re d w).wallet = true
      ↔ ((CwsWin.btcOutcome rb = Outcome.success
            ∧ 0 < (CwsWin.check_wallet false rb re d w).wallet.btc_balance)
        ∨ (CwsWin.ethOutcome re = Outcome.success
            ∧ 0 < (CwsWin.check_wallet false rb re d w).wallet.eth_balance))) := by
  constructor
  · constructor
    · intro h
      have h2 : 0 < (CwsV2.check_wallet_balances false rb re w).btc_balance
          ∨ 0 < (CwsV2.check_wallet_balances false rb re w).eth_balance := by
        simpa [hasBalance] using h
      rcases h2 with hb | he
      · exact Or.inl ⟨v2_btc_pos_success rb hb, hb⟩
      · exact Or.inr ⟨v2_eth_pos_success re he, he⟩
    · intro h
      rcases h with ⟨_, hb⟩ | ⟨_, he⟩
      · simp [hasBalance, hb]
      · simp [hasBalance, he]
  · constructor
    · intro h
      have h2 : 0 < (CwsWin.check_wallet false rb re d w).wallet.btc_balance
          ∨ 0 < (CwsWin.check_wallet false rb re d w).wallet.eth_balance := by
        simpa [hasBalance] using h
      rcases h2 with hb | he
      · exact Or.inl ⟨win_btc_pos_success rb d hb, hb⟩
      · exact Or.inr ⟨win_eth_pos_success re
          (CwsWin.get_btc_balance false rb d).delays he, he⟩
    · intro h
      rcases h with ⟨_, hb⟩ | ⟨_, he⟩
      · simp [hasBalance, hb]
      · simp [hasBalance, he]

/-- Witness for C7 (no top-level hypothesis, given for concreteness):
a scenario where the BTC lookup succeeds with 1 BTC marks the candidate
interesting. -/
theorem c7_interesting_iff_witness :
    hasBalance (CwsV2.check_wallet_balances false
      (Resp.http 200 (Except.ok (some 100000000))) Resp.exn
      ⟨"b", "e", "k", 0, 0⟩) = true :=
  (c7_interesting_iff (Resp.http 200 (Except.ok (some 100000000))) Resp.exn
    CwsWin.initialDelays ⟨"b", "e", "k", 0, 0⟩).1.mpr
    (Or.inl ⟨rfl, by norm_num [CwsV2.check_wallet_balances,
      CwsV2.get_btc_balance, CwsV2.btcTryBody]⟩)

/-- One `scanStep` preserves `found_count ≤ scan_count`. -/
theorem scanStep_counter (t : ScanState) (v : WalletInfo)
    (h : t.found_count ≤ t.scan_count) :
    (scanStep t v).found_count ≤ (scanStep t v).scan_count := by
  simp only [scanStep]
  split <;> omega

/-- The whole loop preserves `found_count ≤ scan_count`. -/
theorem runScanLoop_counter (ws : List WalletInfo) :
    ∀ s : ScanState, s.found_count ≤ s.scan_count →
      (runScanLoop s ws).found_count ≤ (runScanLoop s ws).scan_count := by
  induction ws with
  | nil => intro s h; exact h
  | cons v vs ih =>
    intro s h
    exact ih (scanStep s v) (scanStep_counter s v h)

/-- C10: each `run_scan` iteration increments `scan_count` by exactly
1 and increments `found_count` by exactly 1 when the checked wallet
has some balance > 0 and by 0 otherwise; consequently, from any state
with `found_count ≤ scan_count` (in particular the initial 0/0 state),
`found_count` never exceeds `scan_count` along the loop. -/
theorem c10_counter_invariant (s : ScanState) (w : WalletInfo)
    (ws : List WalletInfo) (hinv : s.found_count ≤ s.scan_count) :
    (scanStep s w).scan_count = s.scan_count + 1
    ∧ (hasBalance w = true → (scanStep s w).found_count = s.found_count + 1)
    ∧ (hasBalance w = false → (scanStep s w).found_count = s.found_count)
    ∧ (scanStep s w).found_count ≤ (scanStep s w).scan_count
    ∧ (runScanLoop s ws).found_count ≤ (runScanLoop s ws).scan_count := by
  refine ⟨rfl, ?_, ?_, scanStep_counter s w hinv, runScanLoop_counter ws s hinv⟩
  · intro h; simp [scanStep, h]
  · intro h; simp [scanStep, h]

/-- Witness for C10: concrete run from the initial counters over a
two-wallet list, one of which has a positive balance. -/
theorem c10_counter_invariant_witness :
    (runScanLoop ⟨0, 0⟩
      [⟨"b", "e", "k", 1, 0⟩, ⟨"b2", "e2", "k2", 0, 0⟩]).found_count
    ≤ (runScanLoop ⟨0, 0⟩
      [⟨"b", "e", "k", 1, 0⟩, ⟨"b2", "e2", "k2", 0, 0⟩]).scan_count :=
  (c10_counter_invariant ⟨0, 0⟩ ⟨"b", "e", "k", 1, 0⟩
    [⟨"b", "e", "k", 1, 0⟩, ⟨"b2", "e2", "k2", 0, 0⟩]
    (Nat.le_refl 0)).2.2.2.2

/-- Counterexample for C6: raw balance 1 satoshi is representable
within 2^53 minor units, yet its normalized value 1/100000000 is not
representable as a binary64 value (its reduced denominator has the
prime factor 5), so the float division in the code cannot return it
exactly: normalization is not exact for every integer input within
2^53 minor units. -/
theorem c6_counterexample :
    (1 : Int).natAbs < 2 ^ 53 ∧ ¬ Binary64Representable (btcNormalize 1) := by
  refine ⟨by norm_num, ?_⟩
  rintro ⟨m, e, hm, heq⟩
  rw [btcNormalize] at heq
  rcases Int.le_or_lt 0 e with he | he
  · obtain ⟨n, rfl⟩ := Int.eq_ofNat_of_zero_le he
    rw [zpow_natCast] at heq
    have h0 : (1 : ℚ) = (m : ℚ) * 2 ^ n * 100000000 := by
      field_simp at heq
      linarith
    have h1 : m * 2 ^ n * 100000000 = 1 := by exact_mod_cast h0.symm
    have hdvd : (100000000 : ℤ) ∣ 1 := ⟨m * 2 ^ n, by rw [← h1]; ring⟩
    have hle := Int.le_of_dvd (by norm_num) hdvd
    norm_num at hle
  · obtain ⟨n, rfl⟩ : ∃ n : ℕ, e = -(n : ℤ) := ⟨(-e).toNat, by omega⟩
    rw [zpow_neg, zpow_natCast] at heq
    have h2 : ((2 : ℚ) ^ n) ≠ 0 := by positivity
    have h0 : ((2 : ℚ) ^ n) = (m : ℚ) * 100000000 := by
      field_simp at heq
      linarith
    have h1 : (2 : ℤ) ^ n = m * 100000000 := by exact_mod_cast h0
    have h5 : (5 : ℤ) ∣ 2 ^ n := by
      rw [h1]
      exact ⟨m * 20000000, by ring⟩
    have h5n : (5 : ℕ) ∣ 2 ^ n := by exact_mod_cast h5
    have h52 : (5 : ℕ) ∣ 2 := Nat.Prime.dvd_of_dvd_pow (by norm_num) h5n
    norm_num at h52

/-- C6 (amended): normalization is the exact rational quotient, and it
is exact through floating conversion for raw values that are integer
multiples of the chain divisor within 2^53 of the divisor (the
quotient is then an integer below 2^53, hence binary64 representable);
in particular raw 100000000 with divisor 1e8 yields exactly 1.0 and
raw 10^18 with divisor 1e18 yields exactly 1.0.  (By the
counterexample, exactness does not extend to every integer input
within 2^53 minor units.) -/
theorem c6_normalization_exact_multiples (k : Int) (hk : k.natAbs < 2 ^ 53) :
    btcNormalize (k * 100000000) = (k : ℚ)
    ∧ ethNormalize (k * 10 ^ 18) = (k : ℚ)
    ∧ Binary64Representable (btcNormalize (k * 100000000))
    ∧ Binary64Representable (ethNormalize (k * 10 ^ 18))
    ∧ btcNormalize 100000000 = 1
    ∧ ethNormalize (10 ^ 18) = 1 := by
  have hb : btcNormalize (k * 100000000) = (k : ℚ) := by
    rw [btcNormalize]
    push_cast
    field_simp
  have heth : ethNormalize (k * 10 ^ 18) = (k : ℚ) := by
    rw [ethNormalize]
    push_cast
    rw [mul_div_assoc]
    norm_num
  refine ⟨hb, heth, ⟨k, 0, hk, by rw [hb]; simp⟩,
    ⟨k, 0, hk, by rw [heth]; simp⟩, ?_, ?_⟩
  · rw [btcNormalize]
    norm_num
  · rw [ethNormalize]
    norm_num

/-- Witness for C6 (amended): the representative BTC round-trip at
raw value 1 * 100000000. -/
theorem c6_normalization_exact_multiples_witness :
    btcNormalize (1 * 100000000) = ((1 : Int) : ℚ) :=
  (c6_normalization_exact_multiples 1 (by norm_num)).1

end CryptoScanner
